import Mathlib

/-!
Verification development for the TudorHulban/https-server repository
(single source file `server.go`).

The Go code is shallowly embedded as pure Lean functions:

* `sync.Pool` of `*bytes.Buffer` (fields `bufferPool` of `Server`) is
  modelled as a deterministic LIFO free-list `Pool` over a heap of
  buffer backing arrays.  `sync.Pool.Get` pops the free list (or
  allocates a fresh empty buffer, mirroring the `New` closure
  `bytes.NewBuffer(nil)`); `sync.Pool.Put` pushes onto the free list.
* A `bytes.Buffer` is `Buf`: its backing array contents `arr` and its
  logical length `len`.  `buffer.Reset()` followed by the sequence of
  `buffer.WriteString` calls of `SendStatus`/`SendBody` overwrites the
  array from position 0 with the concatenation of the written strings,
  keeping any old bytes of the array past the new length
  (`resetWrite`); this is exact when no reallocation occurs, i.e. when
  the new content fits the existing array.  `buffer.Bytes()` returns a
  slice aliasing the array: modelled as `Slice` (buffer id and length),
  observed through the current heap by `observe`.
* `time.Now().Format(time.RFC1123)` is an external input: the `date`
  string parameter.
* `http.StatusText` (Go standard library) is the table `statusText`.
* `http.ReadRequest` is an external collaborator: a parameter
  `parse : String → ParseResult`; a parsed request is reduced to the
  value of `req.Header.Get("Connection")`, the only field `onTraffic`
  inspects.
* `conn.Write`'s error result (discarded by `onTraffic` with `_ =`) is
  the parameter `werr : Option String`, recorded in the write trace.
* The Go `error` returned by `onTraffic` is `Outcome`:
  `keepOpen` is `nil`, `closeGraceful` is the `io.EOF` close signal of
  line 137, `closeError e` is any other error.
* `handleConnection` and the accept loop of `Run` are trace
  functions over finite scripts of read results / accept results.
-/

/-! ### Byte-string helpers (contents are ASCII, one `Char` per byte) -/

def strTake (s : String) (n : Nat) : String := String.mk (s.data.take n)

def strDrop (s : String) (n : Nat) : String := String.mk (s.data.drop n)

theorem strTake_append_left (a b : String) : strTake (a ++ b) a.length = a := by
  cases a with
  | mk da =>
    cases b with
    | mk db =>
      show String.mk ((da ++ db).take da.length) = String.mk da
      rw [List.take_left]

/-! ### `http.StatusText` (Go `net/http` reason-phrase table) -/

def statusText (code : Nat) : String :=
  match code with
  | 100 => "Continue"
  | 101 => "Switching Protocols"
  | 102 => "Processing"
  | 103 => "Early Hints"
  | 200 => "OK"
  | 201 => "Created"
  | 202 => "Accepted"
  | 203 => "Non-Authoritative Information"
  | 204 => "No Content"
  | 205 => "Reset Content"
  | 206 => "Partial Content"
  | 207 => "Multi-Status"
  | 208 => "Already Reported"
  | 226 => "IM Used"
  | 300 => "Multiple Choices"
  | 301 => "Moved Permanently"
  | 302 => "Found"
  | 303 => "See Other"
  | 304 => "Not Modified"
  | 305 => "Use Proxy"
  | 307 => "Temporary Redirect"
  | 308 => "Permanent Redirect"
  | 400 => "Bad Request"
  | 401 => "Unauthorized"
  | 402 => "Payment Required"
  | 403 => "Forbidden"
  | 404 => "Not Found"
  | 405 => "Method Not Allowed"
  | 406 => "Not Acceptable"
  | 407 => "Proxy Authentication Required"
  | 408 => "Request Timeout"
  | 409 => "Conflict"
  | 410 => "Gone"
  | 411 => "Length Required"
  | 412 => "Precondition Failed"
  | 413 => "Request Entity Too Large"
  | 414 => "Request URI Too Long"
  | 415 => "Unsupported Media Type"
  | 416 => "Requested Range Not Satisfiable"
  | 417 => "Expectation Failed"
  | 418 => "I\x27m a teapot"
  | 421 => "Misdirected Request"
  | 422 => "Unprocessable Entity"
  | 423 => "Locked"
  | 424 => "Failed Dependency"
  | 425 => "Too Early"
  | 426 => "Upgrade Required"
  | 428 => "Precondition Required"
  | 429 => "Too Many Requests"
  | 431 => "Request Header Fields Too Large"
  | 451 => "Unavailable For Legal Reasons"
  | 500 => "Internal Server Error"
  | 501 => "Not Implemented"
  | 502 => "Bad Gateway"
  | 503 => "Service Unavailable"
  | 504 => "Gateway Timeout"
  | 505 => "HTTP Version Not Supported"
  | 506 => "Variant Also Negotiates"
  | 507 => "Insufficient Storage"
  | 508 => "Loop Detected"
  | 510 => "Not Extended"
  | 511 => "Network Authentication Required"
  | _ => ""

/-! ### `strings.ToLower` (ASCII range, which is all `onTraffic` compares) -/

def toLowerChar (c : Char) : Char :=
  if 65 ≤ c.toNat ∧ c.toNat ≤ 90 then Char.ofNat (c.toNat + 32) else c

def stringsToLower (s : String) : String := String.mk (s.data.map toLowerChar)

/-! ### The buffer pool (`Server.bufferPool`) and `bytes.Buffer` -/

structure Buf where
  arr : String
  len : Nat
deriving DecidableEq, Repr

structure Pool where
  bufs : List Buf
  free : List Nat
deriving DecidableEq, Repr

/-- `s.bufferPool.Get().(*bytes.Buffer)`: pop the free list, or allocate a
fresh empty buffer (`bytes.NewBuffer(nil)`) at the next heap index. -/
def poolGet : Pool → Pool × Nat
  | ⟨bs, []⟩ => (⟨bs ++ [⟨"", 0⟩], []⟩, bs.length)
  | ⟨bs, i :: rest⟩ => (⟨bs, rest⟩, i)

/-- `s.bufferPool.Put(buffer)`: push the buffer id onto the free list. -/
def poolPut (p : Pool) (i : Nat) : Pool := ⟨p.bufs, i :: p.free⟩

/-- `buffer.Reset()` followed by sequential `buffer.WriteString` calls whose
concatenation is `s`: the array is overwritten from position 0, old bytes
past `s.length` remain in the backing array (no-reallocation case). -/
def resetWrite (b : Buf) (s : String) : Buf :=
  ⟨s ++ strDrop b.arr s.length, s.length⟩

/-- `buffer.Bytes()`: the logical content, `arr[:len]`. -/
def bufBytes (b : Buf) : String := strTake b.arr b.len

/-- A Go byte slice returned by `buffer.Bytes()`: it aliases the buffer's
backing array; its length is fixed when it is created. -/
structure Slice where
  id : Nat
  len : Nat
deriving DecidableEq, Repr

/-- The bytes currently observable through a still-held slice: the first
`len` bytes of the aliased buffer's backing array in the present heap. -/
def observe (p : Pool) (s : Slice) : String :=
  strTake ((p.bufs.getD s.id ⟨"", 0⟩).arr) s.len

/-! ### `SendStatus` / `SendBody` -/

/-- The bytes `SendStatus` writes into the buffer: the concatenation of its
four `WriteString` calls (server.go lines 91-94). -/
def sendStatusContent (code : Nat) (date : String) : String :=
  "HTTP/1.1 " ++ toString code ++ " " ++ statusText code ++ "\r\n" ++
  "Content-Length: 0\r\n" ++
  "Date: " ++ date ++ "\r\n" ++
  "\r\n"

/-- The bytes `SendBody` writes into the buffer: the concatenation of its
five `WriteString` calls (server.go lines 104-108); `len(body)` is the byte
length, equal to `String.length` for the ASCII contents used here. -/
def sendBodyContent (code : Nat) (date body : String) : String :=
  "HTTP/1.1 " ++ toString code ++ " " ++ statusText code ++ "\r\n" ++
  "Content-Length: " ++ toString body.length ++ "\r\n" ++
  "Date: " ++ date ++ "\r\n" ++
  "\r\n" ++
  body

/-- `SendStatus` (server.go lines 86-97): Get from the pool, defer Put,
Reset, write the response head, return `buffer.Bytes()`.  The Go `defer`
runs after the return expression is computed and before the caller receives
it, so the returned pool already contains the release.  Result: the pool
after return, the returned slice, and the slice's bytes at return time. -/
def sendStatus (p : Pool) (code : Nat) (date : String) : Pool × Slice × String :=
  let acq := poolGet p
  let content := sendStatusContent code date
  let b := resetWrite (acq.1.bufs.getD acq.2 ⟨"", 0⟩) content
  let p2 : Pool := ⟨acq.1.bufs.set acq.2 b, acq.1.free⟩
  (poolPut p2 acq.2, ⟨acq.2, content.length⟩, bufBytes b)

/-- `SendBody` (server.go lines 99-111): same scheme with a body. -/
def sendBody (p : Pool) (code : Nat) (date body : String) : Pool × Slice × String :=
  let acq := poolGet p
  let content := sendBodyContent code date body
  let b := resetWrite (acq.1.bufs.getD acq.2 ⟨"", 0⟩) content
  let p2 : Pool := ⟨acq.1.bufs.set acq.2 b, acq.1.free⟩
  (poolPut p2 acq.2, ⟨acq.2, content.length⟩, bufBytes b)

theorem bufBytes_resetWrite (b : Buf) (s : String) :
    bufBytes (resetWrite b s) = s := by
  simp only [bufBytes, resetWrite]
  exact strTake_append_left s (strDrop b.arr s.length)

/-! ### The Traffic Handler `onTraffic` (server.go lines 113-141) -/

/-- Result of `conn.Read()`: data, graceful end-of-stream (`io.EOF`), or
any other read error.  Modelled from the spec: the `Connection` wrapper is
implemented outside `server.go`; §6 specifies its read contract as
`read() -> bytes | EOF | error`, where EOF is a graceful peer close. -/
inductive ReadResult
  | data (bytes : String)
  | eofR
  | errR (e : String)
deriving DecidableEq, Repr

/-- Result of the external parser `http.ReadRequest`: a parsed request,
reduced to the value of `req.Header.Get("Connection")` (the only field the
handler inspects; `Get` returns the empty string when the header is
absent), or a parse error. -/
inductive ParseResult
  | parsed (connectionHeader : String)
  | failed (e : String)
deriving DecidableEq, Repr

/-- The Go `error` value `onTraffic` returns, as the supervisor interprets
it: `keepOpen` is `nil` (loop again), `closeGraceful` is the `io.EOF`
close signal of line 137, `closeError e` is any other non-nil error. -/
inductive Outcome
  | keepOpen
  | closeGraceful
  | closeError (e : String)
deriving DecidableEq, Repr

/-- The literal fallback written on a parse failure (server.go line 129). -/
def badRequestBytes : String :=
  "HTTP/1.1 400 Bad Request\r\nContent-Length: 0\r\n\r\n"

/-- `onTraffic` (server.go lines 113-141).  `parse` is the external
`http.ReadRequest`; `werr` is the error result every `conn.Write` call
returns (`none` = success), which the code discards with `_ =`.  Returns
the pool after the call, the outcome, and the list of writes performed,
each with the (ignored) error the write returned. -/
def onTraffic (parse : String → ParseResult) (werr : Option String)
    (p : Pool) (r : ReadResult) (date : String) :
    Pool × Outcome × List (String × Option String) :=
  match r with
  | ReadResult.eofR => (p, Outcome.keepOpen, [])
  | ReadResult.errR e => (p, Outcome.closeError e, [])
  | ReadResult.data d =>
    match parse d with
    | ParseResult.failed _ => (p, Outcome.keepOpen, [(badRequestBytes, werr)])
    | ParseResult.parsed hdr =>
      let res := sendStatus p 200 date
      if stringsToLower hdr = "close" then
        (res.1, Outcome.closeGraceful, [(res.2.2, werr)])
      else
        (res.1, Outcome.keepOpen, [(res.2.2, werr)])

/-! ### The Connection Supervisor `handleConnection` (server.go lines 69-84) -/

/-- Observable events of one connection's supervisor. -/
inductive Ev
  | setDeadline (secs : Nat)
  | readEv (r : ReadResult)
  | writeEv (bytes : String) (res : Option String)
  | closeEv
deriving DecidableEq, Repr

/-- The `for` loop of `handleConnection`, over a finite script of read
results (one per cycle).  A non-nil outcome breaks the loop and the
deferred `conn.Close()` runs; a nil outcome resets the deadline to 3 and
loops.  An exhausted script means the connection produced nothing further
within the trace observed (the loop is still blocked in its next read). -/
def supervisorLoop (parse : String → ParseResult) (werr : Option String)
    (date : String) : Pool → List ReadResult → List Ev
  | _, [] => []
  | p, r :: rest =>
    let step := onTraffic parse werr p r date
    Ev.readEv r :: (step.2.2.map fun w => Ev.writeEv w.1 w.2) ++
      (match step.2.1 with
       | Outcome.keepOpen => Ev.setDeadline 3 :: supervisorLoop parse werr date step.1 rest
       | _ => [Ev.closeEv])

/-- `handleConnection` (server.go lines 69-84): set the initial 5-second
idle deadline, then run the loop. -/
def handleConn (parse : String → ParseResult) (werr : Option String)
    (date : String) (p : Pool) (reads : List ReadResult) : List Ev :=
  Ev.setDeadline 5 :: supervisorLoop parse werr date p reads

/-- The deadline values set during a trace, in order. -/
def deadlineValues (t : List Ev) : List Nat :=
  t.filterMap fun e =>
    match e with
    | Ev.setDeadline d => some d
    | _ => none

/-- The number of cycles that run and signal "continue" (return `nil`)
before the loop breaks or the script ends. -/
def keepCount (parse : String → ParseResult) (werr : Option String)
    (date : String) : Pool → List ReadResult → Nat
  | _, [] => 0
  | p, r :: rest =>
    let step := onTraffic parse werr p r date
    match step.2.1 with
    | Outcome.keepOpen => keepCount parse werr date step.1 rest + 1
    | _ => 0

/-! ### The accept loop of `Run` (server.go lines 43-67) -/

/-- Result of one `listenerTLS.Accept()` call. -/
inductive AcceptResult
  | accepted (connId : Nat)
  | acceptErr (e : String)
deriving DecidableEq, Repr

/-- Observable events of the accept loop. -/
inductive RunEv
  | logAcceptErr (e : String)
  | spawnSupervisor (connId : Nat)
deriving DecidableEq, Repr

/-- The `for` loop of `Run` over a finite script of accept results: an
accept error is logged and the loop continues; an accepted connection is
handed to a freshly spawned supervisor goroutine. -/
def acceptLoop : List AcceptResult → List RunEv
  | [] => []
  | AcceptResult.accepted c :: rest => RunEv.spawnSupervisor c :: acceptLoop rest
  | AcceptResult.acceptErr e :: rest => RunEv.logAcceptErr e :: acceptLoop rest

/-- `Run` (server.go lines 43-67): `bindErr` is the error of
`net.Listen` (`none` = bound).  A bind failure is returned as
`listener start: <err>` and no accept happens; otherwise the accept loop
runs over the script. -/
def runServer (bindErr : Option String) (accepts : List AcceptResult) :
    Except String (List RunEv) :=
  match bindErr with
  | some e => Except.error ("listener start: " ++ e)
  | none => Except.ok (acceptLoop accepts)

/-! ### Helper lemmas -/

theorem sendStatus_bytes (p : Pool) (code : Nat) (date : String) :
    (sendStatus p code date).2.2 = sendStatusContent code date := by
  simp [sendStatus, bufBytes_resetWrite]

theorem sendBody_bytes (p : Pool) (code : Nat) (date body : String) :
    (sendBody p code date body).2.2 = sendBodyContent code date body := by
  simp [sendBody, bufBytes_resetWrite]

/-! ### Claim theorems -/

/-- Claim C9: for every status code, `SendStatus` produces exactly the byte
sequence `HTTP/1.1 <code> <reason>\r\nContent-Length: 0\r\nDate: <timestamp>\r\n\r\n`
with no body bytes, where the reason is the standard reason-phrase table
entry (`http.StatusText`) for the code — whatever the state of the buffer
pool, so no stale buffer content ever leaks into the response. -/
theorem C9_sendStatus_exact_wire_format (p : Pool) (code : Nat) (date : String) :
    (sendStatus p code date).2.2 =
      "HTTP/1.1 " ++ toString code ++ " " ++ statusText code ++ "\r\n" ++
      "Content-Length: 0\r\n" ++
      "Date: " ++ date ++ "\r\n" ++
      "\r\n" := by
  simp [sendStatus, sendStatusContent, bufBytes_resetWrite]

/-- Claim C7: every acquisition by `SendStatus`/`SendBody` starts the
caller's use from an empty buffer — the produced bytes are exactly the
response content, independent of anything a previous use left in the
buffer — and the buffer is released back to the pool exactly once on the
(only) exit path: the returned pool's free list is the acquired id pushed
onto what remained of the free list after the acquisition. -/
theorem C7_buffer_empty_on_use_released_once (p : Pool) (code : Nat) (date body : String) :
    ((sendStatus p code date).2.2 = sendStatusContent code date
      ∧ (sendStatus p code date).2.1.id = p.free.headD p.bufs.length
      ∧ (sendStatus p code date).1.free = (sendStatus p code date).2.1.id :: p.free.tail)
    ∧ ((sendBody p code date body).2.2 = sendBodyContent code date body
      ∧ (sendBody p code date body).2.1.id = p.free.headD p.bufs.length
      ∧ (sendBody p code date body).1.free = (sendBody p code date body).2.1.id :: p.free.tail) := by
  obtain ⟨bs, free⟩ := p
  cases free <;>
    simp [sendStatus, sendBody, poolGet, poolPut, bufBytes_resetWrite]

/-- Claim C3: when `SendStatus`/`SendBody` returns, the deferred release has
already run — the returned pool has the slice's buffer at the head of the
free list — and consequently (deterministic LIFO free list) a subsequent
call acquires that same buffer, and its writes change the bytes observable
through the earlier call's still-held slice: concretely, after
`SendBody(200, "hello world!")` a following `SendStatus(404)` reuses the
same buffer and the first slice no longer shows the first response. -/
theorem C3_release_before_return_enables_aliasing :
    (∀ (p : Pool) (code : Nat) (date : String),
        ((sendStatus p code date).1).free.head? = some ((sendStatus p code date).2.1).id)
    ∧ (∀ (p : Pool) (code : Nat) (date body : String),
        ((sendBody p code date body).1).free.head? = some ((sendBody p code date body).2.1).id)
    ∧ ((sendStatus (sendBody ⟨[], []⟩ 200 "D" "hello world!").1 404 "D").2.1.id
         = (sendBody ⟨[], []⟩ 200 "D" "hello world!").2.1.id
      ∧ observe (sendBody ⟨[], []⟩ 200 "D" "hello world!").1
          (sendBody ⟨[], []⟩ 200 "D" "hello world!").2.1
          = (sendBody ⟨[], []⟩ 200 "D" "hello world!").2.2
      ∧ ¬ (observe (sendStatus (sendBody ⟨[], []⟩ 200 "D" "hello world!").1 404 "D").1
            (sendBody ⟨[], []⟩ 200 "D" "hello world!").2.1
          = (sendBody ⟨[], []⟩ 200 "D" "hello world!").2.2)) := by
  refine ⟨?_, ?_, by decide, by decide, by decide⟩
  · intro p code date
    obtain ⟨bs, free⟩ := p
    cases free <;> simp [sendStatus, poolGet, poolPut]
  · intro p code date body
    obtain ⟨bs, free⟩ := p
    cases free <;> simp [sendBody, poolGet, poolPut]

/-- Claim C4: a successfully parsed request whose `Connection` header is
not `close` (case-insensitively; absent means the empty string) makes
`onTraffic` perform exactly one write — the 200 response with
`Content-Length: 0` — and return the keep-open signal (`nil`). -/
theorem C4_parsed_no_close_keepopen_single_200
    (parse : String → ParseResult) (werr : Option String) (p : Pool)
    (d date hdr : String)
    (hp : parse d = ParseResult.parsed hdr)
    (hn : ¬ stringsToLower hdr = "close") :
    onTraffic parse werr p (ReadResult.data d) date =
      ((sendStatus p 200 date).1, Outcome.keepOpen,
        [("HTTP/1.1 " ++ "200" ++ " " ++ "OK" ++ "\r\n" ++ "Content-Length: 0\r\n" ++
            "Date: " ++ date ++ "\r\n" ++ "\r\n", werr)]) := by
  have h200 : (toString (200 : Nat) : String) = "200" := rfl
  have hOK : statusText 200 = "OK" := rfl
  simp [onTraffic, hp, hn, sendStatus_bytes, sendStatusContent, h200, hOK]

theorem C4_witness :
    onTraffic (fun _ => ParseResult.parsed "") none ⟨[], []⟩
        (ReadResult.data "GET / HTTP/1.1\r\nHost: x\r\n\r\n") "D" =
      ((sendStatus ⟨[], []⟩ 200 "D").1, Outcome.keepOpen,
        [("HTTP/1.1 200 OK\r\nContent-Length: 0\r\nDate: D\r\n\r\n", none)]) := by
  have h := C4_parsed_no_close_keepopen_single_200 (fun _ => ParseResult.parsed "")
    none ⟨[], []⟩ "GET / HTTP/1.1\r\nHost: x\r\n\r\n" "D" "" rfl (by decide)
  exact h.trans (by decide)

/-- Claim C5: a successfully parsed request whose `Connection` header value
lowercases to `close` makes `onTraffic` write the 200 response and then
return the close signal (`io.EOF`), and the supervisor's cycle on such a
request is: read, the 200 write, close — no further cycle. -/
theorem C5_connection_close_write_then_close
    (parse : String → ParseResult) (werr : Option String) (p : Pool)
    (d date hdr : String)
    (hp : parse d = ParseResult.parsed hdr)
    (hc : stringsToLower hdr = "close") :
    onTraffic parse werr p (ReadResult.data d) date =
      ((sendStatus p 200 date).1, Outcome.closeGraceful,
        [("HTTP/1.1 " ++ "200" ++ " " ++ "OK" ++ "\r\n" ++ "Content-Length: 0\r\n" ++
            "Date: " ++ date ++ "\r\n" ++ "\r\n", werr)])
    ∧ supervisorLoop parse werr date p [ReadResult.data d] =
        [Ev.readEv (ReadResult.data d),
         Ev.writeEv ("HTTP/1.1 " ++ "200" ++ " " ++ "OK" ++ "\r\n" ++ "Content-Length: 0\r\n" ++
            "Date: " ++ date ++ "\r\n" ++ "\r\n") werr,
         Ev.closeEv] := by
  have h200 : (toString (200 : Nat) : String) = "200" := rfl
  have hOK : statusText 200 = "OK" := rfl
  constructor
  · simp [onTraffic, hp, hc, sendStatus_bytes, sendStatusContent, h200, hOK]
  · simp [supervisorLoop, onTraffic, hp, hc, sendStatus_bytes, sendStatusContent, h200, hOK]

theorem C5_witness :
    onTraffic (fun _ => ParseResult.parsed "CLOSE") none ⟨[], []⟩
        (ReadResult.data "GET / HTTP/1.1\r\nHost: x\r\nConnection: CLOSE\r\n\r\n") "D" =
      ((sendStatus ⟨[], []⟩ 200 "D").1, Outcome.closeGraceful,
        [("HTTP/1.1 200 OK\r\nContent-Length: 0\r\nDate: D\r\n\r\n", none)]) := by
  have h := C5_connection_close_write_then_close (fun _ => ParseResult.parsed "CLOSE")
    none ⟨[], []⟩ "GET / HTTP/1.1\r\nHost: x\r\nConnection: CLOSE\r\n\r\n" "D" "CLOSE"
    rfl (by decide)
  exact h.1.trans (by decide)

/-- Claim C6: when parsing fails, `onTraffic` writes exactly the literal
`HTTP/1.1 400 Bad Request\r\nContent-Length: 0\r\n\r\n` (no Date header, no
body), returns the keep-open signal, and leaves the pool untouched. -/
theorem C6_parse_failure_literal_400_keepopen
    (parse : String → ParseResult) (werr : Option String) (p : Pool)
    (d date e : String)
    (hp : parse d = ParseResult.failed e) :
    onTraffic parse werr p (ReadResult.data d) date =
      (p, Outcome.keepOpen,
        [("HTTP/1.1 400 Bad Request\r\nContent-Length: 0\r\n\r\n", werr)]) := by
  simp [onTraffic, hp, badRequestBytes]

theorem C6_witness :
    onTraffic (fun _ => ParseResult.failed "malformed HTTP request") none ⟨[], []⟩
        (ReadResult.data "this is not HTTP\r\n") "D" =
      (⟨[], []⟩, Outcome.keepOpen,
        [("HTTP/1.1 400 Bad Request\r\nContent-Length: 0\r\n\r\n", none)]) :=
  C6_parse_failure_literal_400_keepopen (fun _ => ParseResult.failed "malformed HTTP request")
    none ⟨[], []⟩ "this is not HTTP\r\n" "D" "malformed HTTP request" rfl

/-- Claim C1 is refuted by the code (code bug): on a graceful end-of-stream
read, `onTraffic` returns `nil` — the keep-open signal, not the close
signal `io.EOF` used at line 137 — despite its own comment "client closed
the connection gracefully".  The supervisor therefore resets the idle
deadline and loops for another read cycle on the closed connection instead
of transitioning to CLOSED: a script of two EOF reads produces two read
cycles, two deadline resets, and no close event. -/
theorem C1_eof_read_keeps_connection_looping :
    (∀ (parse : String → ParseResult) (werr : Option String) (p : Pool) (date : String),
        onTraffic parse werr p ReadResult.eofR date = (p, Outcome.keepOpen, []))
    ∧ handleConn (fun _ => ParseResult.failed "x") none "D" ⟨[], []⟩
        [ReadResult.eofR, ReadResult.eofR] =
      [Ev.setDeadline 5, Ev.readEv ReadResult.eofR, Ev.setDeadline 3,
       Ev.readEv ReadResult.eofR, Ev.setDeadline 3] :=
  ⟨fun _ _ _ _ => rfl, by decide⟩

/-- Claim C2 is refuted by the code: both `conn.Write` calls discard their
error (`_ =`), so a write I/O failure does not terminate the supervisor
loop.  Concretely: with every write failing with `broken pipe`, a parsed
request still yields the keep-open outcome and the loop runs a further
full cycle (second read, second failed write, second deadline reset) with
no close event. -/
theorem C2_cex_write_failure_does_not_terminate :
    (onTraffic (fun _ => ParseResult.parsed "") (some "broken pipe") ⟨[], []⟩
        (ReadResult.data "GET / HTTP/1.1\r\nHost: x\r\n\r\n") "D").2.1 = Outcome.keepOpen
    ∧ handleConn (fun _ => ParseResult.parsed "") (some "broken pipe") "D" ⟨[], []⟩
        [ReadResult.data "GET / HTTP/1.1\r\nHost: x\r\n\r\n",
         ReadResult.data "GET / HTTP/1.1\r\nHost: x\r\n\r\n"] =
      [Ev.setDeadline 5,
       Ev.readEv (ReadResult.data "GET / HTTP/1.1\r\nHost: x\r\n\r\n"),
       Ev.writeEv "HTTP/1.1 200 OK\r\nContent-Length: 0\r\nDate: D\r\n\r\n" (some "broken pipe"),
       Ev.setDeadline 3,
       Ev.readEv (ReadResult.data "GET / HTTP/1.1\r\nHost: x\r\n\r\n"),
       Ev.writeEv "HTTP/1.1 200 OK\r\nContent-Length: 0\r\nDate: D\r\n\r\n" (some "broken pipe"),
       Ev.setDeadline 3] := by
  exact ⟨rfl, by decide⟩

/-- Claim C2, amended: the Traffic Handler discards the error of every
write (on the 200 path and on the 400 fallback path alike): the pool, the
outcome — hence whether the supervisor loop continues — and the bytes
written are all independent of the write results; only the recorded write
errors differ. -/
theorem C2_amended_write_errors_ignored
    (parse : String → ParseResult) (w1 w2 : Option String) (p : Pool)
    (r : ReadResult) (date : String) :
    (onTraffic parse w1 p r date).1 = (onTraffic parse w2 p r date).1
    ∧ (onTraffic parse w1 p r date).2.1 = (onTraffic parse w2 p r date).2.1
    ∧ (onTraffic parse w1 p r date).2.2.map Prod.fst
        = (onTraffic parse w2 p r date).2.2.map Prod.fst := by
  cases r with
  | eofR => exact ⟨rfl, rfl, rfl⟩
  | errR e => exact ⟨rfl, rfl, rfl⟩
  | data d =>
    cases hp : parse d with
    | failed e => simp [onTraffic, hp]
    | parsed hdr =>
      by_cases hc : stringsToLower hdr = "close" <;> simp [onTraffic, hp, hc]

theorem deadlineValues_cons_read (r : ReadResult) (t : List Ev) :
    deadlineValues (Ev.readEv r :: t) = deadlineValues t := by
  simp [deadlineValues]

theorem deadlineValues_cons_write (b : String) (w : Option String) (t : List Ev) :
    deadlineValues (Ev.writeEv b w :: t) = deadlineValues t := by
  simp [deadlineValues]

theorem deadlineValues_cons_set (d : Nat) (t : List Ev) :
    deadlineValues (Ev.setDeadline d :: t) = d :: deadlineValues t := by
  simp [deadlineValues]

theorem deadlineValues_close : deadlineValues [Ev.closeEv] = [] := rfl

theorem deadlineValues_supervisorLoop (parse : String → ParseResult)
    (werr : Option String) (date : String) :
    ∀ (reads : List ReadResult) (p : Pool),
      deadlineValues (supervisorLoop parse werr date p reads)
        = List.replicate (keepCount parse werr date p reads) 3 := by
  intro reads
  induction reads with
  | nil => intro p; rfl
  | cons r rest ih =>
    intro p
    cases r with
    | eofR =>
      simp [supervisorLoop, keepCount, onTraffic, deadlineValues_cons_read,
        deadlineValues_cons_set, List.replicate_succ, ih]
    | errR e =>
      simp [supervisorLoop, keepCount, onTraffic, deadlineValues_cons_read,
        deadlineValues_close, List.replicate]
    | data d =>
      cases hp : parse d with
      | failed e =>
        simp [supervisorLoop, keepCount, onTraffic, hp, deadlineValues_cons_read,
          deadlineValues_cons_write, deadlineValues_cons_set, List.replicate_succ, ih]
      | parsed hdr =>
        by_cases hc : stringsToLower hdr = "close" <;>
          simp [supervisorLoop, keepCount, onTraffic, hp, hc, deadlineValues_cons_read,
            deadlineValues_cons_write, deadlineValues_cons_set, deadlineValues_close,
            List.replicate_succ, List.replicate, ih]

/-- Claim C8: the supervisor sets the 5-unit idle deadline once on entry,
before the first cycle, and thereafter sets a deadline exactly after each
cycle that signals "continue" — always the 3-unit value — and never sets
any other deadline: the sequence of deadline values of any connection
trace is `5` followed by one `3` per continue-cycle. -/
theorem C8_deadline_discipline (parse : String → ParseResult)
    (werr : Option String) (date : String) (p : Pool) (reads : List ReadResult) :
    handleConn parse werr date p reads
        = Ev.setDeadline 5 :: supervisorLoop parse werr date p reads
    ∧ deadlineValues (handleConn parse werr date p reads)
        = 5 :: List.replicate (keepCount parse werr date p reads) 3 := by
  refine ⟨rfl, ?_⟩
  show deadlineValues (Ev.setDeadline 5 :: supervisorLoop parse werr date p reads) = _
  rw [deadlineValues, List.filterMap_cons]
  exact congrArg (5 :: ·) (deadlineValues_supervisorLoop parse werr date reads p)

/-- Claim C10: an error from a single accept call never terminates the
accept loop — it is logged and every connection accepted later is still
handed to its own supervisor — and only a bind failure prevents the loop
from starting, surfaced as the error return of `Run`; a successful bind
runs the loop over all accept results. -/
theorem C10_accept_errors_never_stop_loop :
    (∀ (pre : List AcceptResult) (e : String) (post : List AcceptResult),
        acceptLoop (pre ++ AcceptResult.acceptErr e :: post)
          = acceptLoop pre ++ RunEv.logAcceptErr e :: acceptLoop post)
    ∧ (∀ (c : Nat) (rest : List AcceptResult),
        acceptLoop (AcceptResult.accepted c :: rest)
          = RunEv.spawnSupervisor c :: acceptLoop rest)
    ∧ (∀ (accepts : List AcceptResult),
        runServer none accepts = Except.ok (acceptLoop accepts))
    ∧ (∀ (e : String) (accepts : List AcceptResult),
        runServer (some e) accepts = Except.error ("listener start: " ++ e)) := by
  refine ⟨?_, fun _ _ => rfl, fun _ => rfl, fun _ _ => rfl⟩
  intro pre e post
  induction pre with
  | nil => rfl
  | cons a rest ih => cases a <;> simp [acceptLoop, ih]
